import Mathlib

/-!
Verification of the Scope 3 value-chain dashboard core
(`src/scope3_dashboard.py`): the calculation engine
`calculate_emissions`, the data-quality scorer
`calculate_data_quality`, and the method hierarchy table.

Python floats are modelled as real numbers; Python's `round(x, n)`
(round half to even) is modelled by `pyRound`; a `KeyError` raised by
`inputs["k"]` on a missing key is modelled by `Except.error "k"`.
-/

namespace Scope3

/-- The `METHOD_HIERARCHY` dict of the source, as an association list
(insertion order preserved). -/
def METHOD_HIERARCHY : List (String × ℕ) :=
  [("Supplier-Specific", 5),
   ("Activity-Based", 4),
   ("Average-Data", 3),
   ("Spend-Based", 2),
   ("Proxy Estimate", 1)]

/-- Python's round-half-to-even on a real number, to an integer. -/
noncomputable def roundHalfEven (x : ℝ) : ℤ :=
  if x - ⌊x⌋ < 1 / 2 then ⌊x⌋
  else if 1 / 2 < x - ⌊x⌋ then ⌊x⌋ + 1
  else if Even ⌊x⌋ then ⌊x⌋ else ⌊x⌋ + 1

/-- Python's `round(x, ndigits)` on reals: round half to even at the
given decimal position. -/
noncomputable def pyRound (x : ℝ) (ndigits : ℕ) : ℝ :=
  (roundHalfEven (x * 10 ^ ndigits) : ℝ) / 10 ^ ndigits

/-- The source's `calculate_data_quality(method, activity_uncertainty_pct,
factor_uncertainty_pct, coverage_pct)`, returning
`(data quality score, combined uncertainty)`. -/
noncomputable def calculate_data_quality (method : String)
    (activity_uncertainty_pct factor_uncertainty_pct coverage_pct : ℝ) :
    ℝ × ℝ :=
  let hierarchy_score : ℝ := (((METHOD_HIERARCHY.lookup method).getD 1 : ℕ) : ℝ) / 5
  let combined_uncertainty : ℝ :=
    Real.sqrt (activity_uncertainty_pct ^ 2 + factor_uncertainty_pct ^ 2)
  let uncertainty_score : ℝ := max 0 (1 - combined_uncertainty / 100)
  let coverage_score : ℝ := min (max (coverage_pct / 100) 0) 1
  let total_score : ℝ :=
    ((0.4 * hierarchy_score) + (0.3 * uncertainty_score) + (0.3 * coverage_score)) * 100
  (pyRound total_score 1, pyRound combined_uncertainty 2)

/-- The method-rank table as the specification words it: Supplier-Specific=5,
Activity-Based=4, Average-Data=3, Spend-Based=2, Proxy Estimate=1, any other
label ranks 1. -/
def specRank (m : String) : ℕ :=
  if m = "Supplier-Specific" then 5
  else if m = "Activity-Based" then 4
  else if m = "Average-Data" then 3
  else if m = "Spend-Based" then 2
  else if m = "Proxy Estimate" then 1
  else 1

/-- The scorer as the specification words it: the pair
`(round(100 × (0.4 × rank/5 + 0.3 × max(0, 1 − sqrt(a² + f²)/100)
+ 0.3 × clamp(c/100, 0, 1)), 1), round(sqrt(a² + f²), 2))`. -/
noncomputable def score_spec (method : String) (a f c : ℝ) : ℝ × ℝ :=
  (pyRound (100 * (0.4 * ((specRank method : ℝ) / 5)
      + 0.3 * max 0 (1 - Real.sqrt (a ^ 2 + f ^ 2) / 100)
      + 0.3 * min (max (c / 100) 0) 1)) 1,
   pyRound (Real.sqrt (a ^ 2 + f ^ 2)) 2)

/-- The `inputs` dict passed to `calculate_emissions`, restricted to the
keys the engine reads: each numeric key is present (`some`) or absent
(`none`), and the optional `method` key holds a string. -/
structure Inputs where
  distance_km : Option ℝ
  travel_factor : Option ℝ
  hotel_nights : Option ℝ
  hotel_factor : Option ℝ
  weight_tonnes : Option ℝ
  transport_factor : Option ℝ
  investee_emissions : Option ℝ
  outstanding_amount : Option ℝ
  evic : Option ℝ
  lifetime_years : Option ℝ
  annual_usage_kwh : Option ℝ
  grid_factor : Option ℝ
  quantity : Option ℝ
  generic_factor : Option ℝ
  method : Option String

/-- The empty input record. -/
def emptyInputs : Inputs :=
  ⟨none, none, none, none, none, none, none, none, none, none, none, none,
   none, none, none⟩

/-- Python's `inputs[key]`: the value when present, otherwise a
`KeyError` carrying the key name. -/
def dictGet (o : Option ℝ) (key : String) : Except String ℝ :=
  match o with
  | some v => Except.ok v
  | none => Except.error key

/-- Python's `needle in haystack` substring test on lists of characters. -/
def charsContain (haystack needle : List Char) : Bool :=
  match haystack with
  | [] => needle.isEmpty
  | _ :: rest => List.isPrefixOf needle haystack || charsContain rest needle

/-- Python's `needle in haystack` substring test on strings. -/
def strContains (haystack needle : String) : Bool :=
  charsContain haystack.data needle.data

/-- The source's `calculate_emissions(category_name, inputs)`, returning
`(emissions, method)` or the `KeyError` key of the first missing field. -/
noncomputable def calculate_emissions (category_name : String) (inputs : Inputs) :
    Except String (ℝ × String) :=
  if category_name = "Business Travel" then do
    let distance ← dictGet inputs.distance_km "distance_km"
    let travel_factor ← dictGet inputs.travel_factor "travel_factor"
    let hotel_nights ← dictGet inputs.hotel_nights "hotel_nights"
    let hotel_factor ← dictGet inputs.hotel_factor "hotel_factor"
    return ((distance * travel_factor) + (hotel_nights * hotel_factor), "Activity-Based")
  else if strContains category_name "Transportation" then do
    let distance ← dictGet inputs.distance_km "distance_km"
    let weight ← dictGet inputs.weight_tonnes "weight_tonnes"
    let factor ← dictGet inputs.transport_factor "transport_factor"
    return (distance * weight * factor, "Activity-Based")
  else if category_name = "Investments" then do
    let company_emissions ← dictGet inputs.investee_emissions "investee_emissions"
    let outstanding_amount ← dictGet inputs.outstanding_amount "outstanding_amount"
    let evic ← dictGet inputs.evic "evic"
    let attribution_factor : ℝ := if evic ≠ 0 then outstanding_amount / evic else 0
    return (company_emissions * attribution_factor, "PCAF Financed Emissions")
  else if category_name = "Use of Sold Products" then do
    let lifetime_years ← dictGet inputs.lifetime_years "lifetime_years"
    let annual_usage ← dictGet inputs.annual_usage_kwh "annual_usage_kwh"
    let grid_factor ← dictGet inputs.grid_factor "grid_factor"
    return (lifetime_years * annual_usage * grid_factor, "Activity-Based")
  else
    Except.ok (inputs.quantity.getD 0 * inputs.generic_factor.getD 0,
      inputs.method.getD "Average-Data")

/-- The five formula families of the dispatch table. -/
inductive Family where
  | businessTravel
  | transportation
  | investments
  | useOfSold
  | generic
deriving DecidableEq

/-- The dispatch policy as the specification words it: exact
"Business Travel" first, then any label containing "Transportation",
then exact "Investments", then exact "Use of Sold Products", then the
default family. -/
def specDispatch (category_name : String) : Family :=
  if category_name = "Business Travel" then Family.businessTravel
  else if strContains category_name "Transportation" then Family.transportation
  else if category_name = "Investments" then Family.investments
  else if category_name = "Use of Sold Products" then Family.useOfSold
  else Family.generic

/-- The per-family formulas of the dispatch table, applied to an input
record. -/
noncomputable def familyCompute (fam : Family) (inputs : Inputs) :
    Except String (ℝ × String) :=
  match fam with
  | Family.businessTravel => do
    let distance ← dictGet inputs.distance_km "distance_km"
    let travel_factor ← dictGet inputs.travel_factor "travel_factor"
    let hotel_nights ← dictGet inputs.hotel_nights "hotel_nights"
    let hotel_factor ← dictGet inputs.hotel_factor "hotel_factor"
    return ((distance * travel_factor) + (hotel_nights * hotel_factor), "Activity-Based")
  | Family.transportation => do
    let distance ← dictGet inputs.distance_km "distance_km"
    let weight ← dictGet inputs.weight_tonnes "weight_tonnes"
    let factor ← dictGet inputs.transport_factor "transport_factor"
    return (distance * weight * factor, "Activity-Based")
  | Family.investments => do
    let company_emissions ← dictGet inputs.investee_emissions "investee_emissions"
    let outstanding_amount ← dictGet inputs.outstanding_amount "outstanding_amount"
    let evic ← dictGet inputs.evic "evic"
    let attribution_factor : ℝ := if evic ≠ 0 then outstanding_amount / evic else 0
    return (company_emissions * attribution_factor, "PCAF Financed Emissions")
  | Family.useOfSold => do
    let lifetime_years ← dictGet inputs.lifetime_years "lifetime_years"
    let annual_usage ← dictGet inputs.annual_usage_kwh "annual_usage_kwh"
    let grid_factor ← dictGet inputs.grid_factor "grid_factor"
    return (lifetime_years * annual_usage * grid_factor, "Activity-Based")
  | Family.generic =>
    Except.ok (inputs.quantity.getD 0 * inputs.generic_factor.getD 0,
      inputs.method.getD "Average-Data")

/-- The numeric fields each formula family reads from the record, in the
order the source reads them; the default family reads its two fields with
`dict.get` defaults, so it requires none. -/
def requiredFields (fam : Family) : List String :=
  match fam with
  | Family.businessTravel =>
    ["distance_km", "travel_factor", "hotel_nights", "hotel_factor"]
  | Family.transportation => ["distance_km", "weight_tonnes", "transport_factor"]
  | Family.investments => ["investee_emissions", "outstanding_amount", "evic"]
  | Family.useOfSold => ["lifetime_years", "annual_usage_kwh", "grid_factor"]
  | Family.generic => []

/-- Read a numeric field of the record by its dict key. -/
def getField (i : Inputs) (f : String) : Option ℝ :=
  if f = "distance_km" then i.distance_km
  else if f = "travel_factor" then i.travel_factor
  else if f = "hotel_nights" then i.hotel_nights
  else if f = "hotel_factor" then i.hotel_factor
  else if f = "weight_tonnes" then i.weight_tonnes
  else if f = "transport_factor" then i.transport_factor
  else if f = "investee_emissions" then i.investee_emissions
  else if f = "outstanding_amount" then i.outstanding_amount
  else if f = "evic" then i.evic
  else if f = "lifetime_years" then i.lifetime_years
  else if f = "annual_usage_kwh" then i.annual_usage_kwh
  else if f = "grid_factor" then i.grid_factor
  else if f = "quantity" then i.quantity
  else if f = "generic_factor" then i.generic_factor
  else none

/-- A present optional numeric value is non-negative. -/
def optNonneg (o : Option ℝ) : Prop :=
  ∀ v, o = some v → 0 ≤ v

/-- Every numeric field present in the record is non-negative. -/
def NonnegInputs (i : Inputs) : Prop :=
  optNonneg i.distance_km ∧ optNonneg i.travel_factor ∧
  optNonneg i.hotel_nights ∧ optNonneg i.hotel_factor ∧
  optNonneg i.weight_tonnes ∧ optNonneg i.transport_factor ∧
  optNonneg i.investee_emissions ∧ optNonneg i.outstanding_amount ∧
  optNonneg i.evic ∧ optNonneg i.lifetime_years ∧
  optNonneg i.annual_usage_kwh ∧ optNonneg i.grid_factor ∧
  optNonneg i.quantity ∧ optNonneg i.generic_factor

/-- Every numeric field the matched formula family requires is present. -/
def RequiredPresent (category_name : String) (i : Inputs) : Prop :=
  ∀ f ∈ requiredFields (specDispatch category_name), (getField i f).isSome

/-- The five method-hierarchy labels. -/
def hierarchyLabels : List String :=
  ["Supplier-Specific", "Activity-Based", "Average-Data", "Spend-Based",
   "Proxy Estimate"]

/-- The labels a well-formed `CalculationResult` may carry: the five
method-hierarchy labels plus the PCAF-specific label. -/
def allowedMethods : List String :=
  hierarchyLabels ++ ["PCAF Financed Emissions"]

/-- The spec's Business Travel example record:
`{distance_km=1000, travel_factor=0.158, hotel_nights=2, hotel_factor=14.5}`. -/
def btInputs : Inputs :=
  ⟨some 1000, some 0.158, some 2, some 14.5, none, none, none, none, none,
   none, none, none, none, none, none⟩

/-- The spec's Investments example record:
`{investee_emissions=1000, outstanding_amount=50, evic=0}`. -/
def invInputs : Inputs :=
  ⟨none, none, none, none, none, none, some 1000, some 50, some 0, none,
   none, none, none, none, none⟩

/-- A generic-category record carrying a method label outside the
method hierarchy: `{quantity=1, generic_factor=1, method="Bogus"}`. -/
def bogusInputs : Inputs :=
  ⟨none, none, none, none, none, none, none, none, none, none, none, none,
   some 1, some 1, some "Bogus"⟩

/-! ### Helper lemmas -/

lemma roundHalfEven_intCast (z : ℤ) : roundHalfEven (z : ℝ) = z := by
  unfold roundHalfEven
  rw [Int.floor_intCast]
  norm_num

lemma floor_le_roundHalfEven (x : ℝ) : ⌊x⌋ ≤ roundHalfEven x := by
  unfold roundHalfEven
  split_ifs <;> omega

lemma roundHalfEven_le_floor_add_one (x : ℝ) : roundHalfEven x ≤ ⌊x⌋ + 1 := by
  unfold roundHalfEven
  split_ifs <;> omega

lemma roundHalfEven_mono {x y : ℝ} (h : x ≤ y) :
    roundHalfEven x ≤ roundHalfEven y := by
  rcases lt_or_eq_of_le (Int.floor_le_floor h) with hf | hf
  · calc roundHalfEven x ≤ ⌊x⌋ + 1 := roundHalfEven_le_floor_add_one x
      _ ≤ ⌊y⌋ := by omega
      _ ≤ roundHalfEven y := floor_le_roundHalfEven y
  · unfold roundHalfEven
    rw [← hf]
    have h1 : x - ⌊x⌋ ≤ y - ⌊x⌋ := by linarith
    split_ifs <;> first | omega | linarith

lemma pyRound_intCast (z : ℤ) (n : ℕ) : pyRound (z : ℝ) n = z := by
  unfold pyRound
  have h : (z : ℝ) * 10 ^ n = ((z * 10 ^ n : ℤ) : ℝ) := by push_cast; ring
  rw [h, roundHalfEven_intCast]
  push_cast
  rw [mul_div_assoc]
  norm_num

lemma pyRound_mono {x y : ℝ} (n : ℕ) (h : x ≤ y) : pyRound x n ≤ pyRound y n := by
  unfold pyRound
  have h10 : (0 : ℝ) < 10 ^ n := by positivity
  have hr : roundHalfEven (x * 10 ^ n) ≤ roundHalfEven (y * 10 ^ n) :=
    roundHalfEven_mono (mul_le_mul_of_nonneg_right h (le_of_lt h10))
  gcongr

lemma lookup_eq_specRank (m : String) :
    (METHOD_HIERARCHY.lookup m).getD 1 = specRank m := by
  by_cases h1 : m = "Supplier-Specific"
  · subst h1; decide
  by_cases h2 : m = "Activity-Based"
  · subst h2; decide
  by_cases h3 : m = "Average-Data"
  · subst h3; decide
  by_cases h4 : m = "Spend-Based"
  · subst h4; decide
  by_cases h5 : m = "Proxy Estimate"
  · subst h5; decide
  simp [METHOD_HIERARCHY, specRank, List.lookup, beq_false_of_ne h1,
    beq_false_of_ne h2, beq_false_of_ne h3, beq_false_of_ne h4,
    beq_false_of_ne h5, h1, h2, h3, h4, h5]

lemma specRank_ge_one (m : String) : 1 ≤ specRank m := by
  unfold specRank
  split_ifs <;> omega

lemma specRank_le_five (m : String) : specRank m ≤ 5 := by
  unfold specRank
  split_ifs <;> omega

lemma optNonneg_none : optNonneg none :=
  fun _ h => Option.noConfusion h

lemma optNonneg_some {x : ℝ} (hx : 0 ≤ x) : optNonneg (some x) := by
  intro v h
  rw [Option.some_inj] at h
  rwa [h] at hx

lemma le_pyRound_of_le {z : ℤ} {x : ℝ} (n : ℕ) (h : (z : ℝ) ≤ x) :
    (z : ℝ) ≤ pyRound x n :=
  calc (z : ℝ) = pyRound (z : ℝ) n := (pyRound_intCast z n).symm
    _ ≤ pyRound x n := pyRound_mono n h

lemma pyRound_le_of_le {z : ℤ} {x : ℝ} (n : ℕ) (h : x ≤ (z : ℝ)) :
    pyRound x n ≤ (z : ℝ) :=
  calc pyRound x n ≤ pyRound (z : ℝ) n := pyRound_mono n h
    _ = (z : ℝ) := pyRound_intCast z n

lemma calculate_data_quality_fst (m : String) (a f c : ℝ) :
    (calculate_data_quality m a f c).1 =
      pyRound (((0.4 * ((specRank m : ℝ) / 5)) +
        (0.3 * max 0 (1 - Real.sqrt (a ^ 2 + f ^ 2) / 100)) +
        (0.3 * min (max (c / 100) 0) 1)) * 100) 1 := by
  simp only [calculate_data_quality, lookup_eq_specRank]

/-! ### Claim theorems -/

/-- C1: for every method label and every triple of real inputs, the scorer
returns exactly the pair `(round(100 × (0.4 × rank(method)/5 +
0.3 × max(0, 1 − sqrt(a² + f²)/100) + 0.3 × clamp(c/100, 0, 1)), 1),
round(sqrt(a² + f²), 2))`, with rank given by the fixed table (unknown
labels rank 1), no upper clamp on the combined uncertainty, and totality
expressed by the function's type. -/
theorem calculate_data_quality_eq_score_spec (m : String) (a f c : ℝ) :
    calculate_data_quality m a f c = score_spec m a f c := by
  simp only [calculate_data_quality, score_spec, lookup_eq_specRank]
  congr 1
  congr 1
  ring

/-- C2: the engine dispatches over exactly the five fixed formula families
in the spec table's precedence order — exact "Business Travel", then any
label containing "Transportation", then exact "Investments", then exact
"Use of Sold Products", then the default — and each exact category label
dispatches to its own family. -/
theorem calculate_emissions_dispatch :
    (∀ (cat : String) (i : Inputs),
       calculate_emissions cat i = familyCompute (specDispatch cat) i) ∧
    specDispatch "Business Travel" = Family.businessTravel ∧
    specDispatch "Investments" = Family.investments ∧
    specDispatch "Use of Sold Products" = Family.useOfSold := by
  refine ⟨fun cat i => ?_, by decide, by decide, by decide⟩
  unfold calculate_emissions specDispatch familyCompute
  split_ifs <;> rfl

/-- C3: for every Investments record carrying the three fields, the engine
returns `investee_emissions × (outstanding_amount / evic)` with the
attribution ratio 0 when `evic = 0`, and method "PCAF Financed Emissions";
in particular the spec's example with `evic = 0` yields emissions 0. -/
theorem investments_formula (i : Inputs) (inv out ev : ℝ)
    (h1 : i.investee_emissions = some inv)
    (h2 : i.outstanding_amount = some out)
    (h3 : i.evic = some ev) :
    calculate_emissions "Investments" i =
      Except.ok (inv * (if ev = 0 then 0 else out / ev),
        "PCAF Financed Emissions") ∧
    calculate_emissions "Investments" invInputs =
      Except.ok (0, "PCAF Financed Emissions") := by
  constructor
  · unfold calculate_emissions
    rw [if_neg (by decide), if_neg (by decide), if_pos rfl, h1, h2, h3]
    refine Eq.trans (b := Except.ok (inv * (if ev ≠ 0 then out / ev else 0),
      "PCAF Financed Emissions")) rfl ?_
    by_cases hev : ev = 0 <;> simp [hev]
  · unfold calculate_emissions
    rw [if_neg (by decide), if_neg (by decide), if_pos rfl]
    refine Eq.trans (b := Except.ok ((1000 : ℝ) *
      (if (0 : ℝ) ≠ 0 then (50 : ℝ) / 0 else 0), "PCAF Financed Emissions")) rfl ?_
    norm_num

/-- Witness for C3 at the spec's concrete example record. -/
theorem investments_formula_witness :
    calculate_emissions "Investments" invInputs =
      Except.ok ((1000 : ℝ) * (if (0 : ℝ) = 0 then 0 else (50 : ℝ) / 0),
        "PCAF Financed Emissions") ∧
    calculate_emissions "Investments" invInputs =
      Except.ok (0, "PCAF Financed Emissions") :=
  investments_formula invInputs 1000 50 0 rfl rfl rfl

/-- C4 counterexample: on a Business Travel record with no fields the
engine fails with the bare key "distance_km", a message that does not
mention the category label "Business Travel"; so the error does not
identify the category, only the missing field. -/
theorem keyerror_message_lacks_category :
    calculate_emissions "Business Travel" emptyInputs =
      Except.error "distance_km" ∧
    strContains "distance_km" "Business Travel" = false :=
  ⟨rfl, by decide⟩

/-- C4 (amended): for every category matching one of the four non-default
formula families and every record lacking a required numeric field, the
engine fails loudly with an error naming a missing required field (but not
the category), and never substitutes a default for the absent field. -/
theorem missing_field_fails (cat : String) (i : Inputs)
    (hfam : specDispatch cat ≠ Family.generic)
    (hmiss : ∃ f ∈ requiredFields (specDispatch cat), getField i f = none) :
    ∃ f, calculate_emissions cat i = Except.error f ∧
      f ∈ requiredFields (specDispatch cat) ∧ getField i f = none := by
  unfold calculate_emissions
  unfold specDispatch at hfam hmiss ⊢
  split_ifs at hfam hmiss ⊢ with h1 h2 h3 h4
  · rcases hd : i.distance_km with _ | d
    · exact ⟨"distance_km", by rfl, by decide, by simp [getField, hd]⟩
    rcases htf : i.travel_factor with _ | tf
    · exact ⟨"travel_factor", by rfl, by decide,
        by simp [getField, htf]⟩
    rcases hhn : i.hotel_nights with _ | hn
    · exact ⟨"hotel_nights", by rfl, by decide,
        by simp [getField, hhn]⟩
    rcases hhf : i.hotel_factor with _ | hf
    · exact ⟨"hotel_factor", by rfl, by decide,
        by simp [getField, hhf]⟩
    rcases hmiss with ⟨f, hfmem, hfnone⟩
    simp only [requiredFields, List.mem_cons, List.not_mem_nil, or_false] at hfmem
    rcases hfmem with rfl | rfl | rfl | rfl <;>
      simp [getField, hd, htf, hhn, hhf] at hfnone
  · rcases hd : i.distance_km with _ | d
    · exact ⟨"distance_km", by rfl, by decide, by simp [getField, hd]⟩
    rcases hw : i.weight_tonnes with _ | w
    · exact ⟨"weight_tonnes", by rfl, by decide,
        by simp [getField, hw]⟩
    rcases ht : i.transport_factor with _ | t
    · exact ⟨"transport_factor", by rfl, by decide,
        by simp [getField, ht]⟩
    rcases hmiss with ⟨f, hfmem, hfnone⟩
    simp only [requiredFields, List.mem_cons, List.not_mem_nil, or_false] at hfmem
    rcases hfmem with rfl | rfl | rfl <;>
      simp [getField, hd, hw, ht] at hfnone
  · rcases hie : i.investee_emissions with _ | ie
    · exact ⟨"investee_emissions", by rfl, by decide,
        by simp [getField, hie]⟩
    rcases hoa : i.outstanding_amount with _ | oa
    · exact ⟨"outstanding_amount", by rfl, by decide,
        by simp [getField, hoa]⟩
    rcases hev : i.evic with _ | ev
    · exact ⟨"evic", by rfl, by decide,
        by simp [getField, hev]⟩
    rcases hmiss with ⟨f, hfmem, hfnone⟩
    simp only [requiredFields, List.mem_cons, List.not_mem_nil, or_false] at hfmem
    rcases hfmem with rfl | rfl | rfl <;>
      simp [getField, hie, hoa, hev] at hfnone
  · rcases hl : i.lifetime_years with _ | l
    · exact ⟨"lifetime_years", by rfl, by decide, by simp [getField, hl]⟩
    rcases ha : i.annual_usage_kwh with _ | au
    · exact ⟨"annual_usage_kwh", by rfl, by decide,
        by simp [getField, ha]⟩
    rcases hg : i.grid_factor with _ | g
    · exact ⟨"grid_factor", by rfl, by decide,
        by simp [getField, hg]⟩
    rcases hmiss with ⟨f, hfmem, hfnone⟩
    simp only [requiredFields, List.mem_cons, List.not_mem_nil, or_false] at hfmem
    rcases hfmem with rfl | rfl | rfl <;>
      simp [getField, hl, ha, hg] at hfnone
  · exact absurd rfl hfam

/-- Witness for C4 (amended) at Business Travel and the empty record. -/
theorem missing_field_fails_witness :
    ∃ f, calculate_emissions "Business Travel" emptyInputs = Except.error f ∧
      f ∈ requiredFields (specDispatch "Business Travel") ∧
      getField emptyInputs f = none :=
  missing_field_fails "Business Travel" emptyInputs (by decide)
    ⟨"distance_km", by decide, by decide⟩

/-- C5: a category label matching none of the four patterns takes the
default branch: emissions `quantity × generic_factor` with both fields
defaulting to 0 when absent, the record's method label defaulting to
"Average-Data", and no failure. -/
theorem default_branch (cat : String) (i : Inputs)
    (h1 : cat ≠ "Business Travel")
    (h2 : strContains cat "Transportation" = false)
    (h3 : cat ≠ "Investments")
    (h4 : cat ≠ "Use of Sold Products") :
    calculate_emissions cat i =
      Except.ok (i.quantity.getD 0 * i.generic_factor.getD 0,
        i.method.getD "Average-Data") := by
  unfold calculate_emissions
  rw [if_neg h1, if_neg (by simp [h2]), if_neg h3, if_neg h4]

/-- Witness for C5 at the category "Purchased Goods and Services" and the
empty record. -/
theorem default_branch_witness :
    calculate_emissions "Purchased Goods and Services" emptyInputs =
      Except.ok (emptyInputs.quantity.getD 0 * emptyInputs.generic_factor.getD 0,
        emptyInputs.method.getD "Average-Data") :=
  default_branch "Purchased Goods and Services" emptyInputs
    (by decide) (by decide) (by decide) (by decide)

/-- C6 counterexample: a default-branch record with non-negative numeric
fields whose `method` entry is the label "Bogus" satisfies the claim's
hypotheses, yet the engine echoes "Bogus", which is neither a hierarchy
label nor the PCAF label. -/
theorem method_label_escapes_hierarchy :
    calculate_emissions "Franchises" bogusInputs = Except.ok (1, "Bogus") ∧
    "Bogus" ∉ allowedMethods ∧
    NonnegInputs bogusInputs ∧
    RequiredPresent "Franchises" bogusInputs := by
  refine ⟨?_, by decide, ?_, ?_⟩
  · unfold calculate_emissions
    rw [if_neg (by decide), if_neg (by decide), if_neg (by decide),
      if_neg (by decide)]
    norm_num [bogusInputs]
  · exact ⟨optNonneg_none, optNonneg_none, optNonneg_none, optNonneg_none,
      optNonneg_none, optNonneg_none, optNonneg_none, optNonneg_none,
      optNonneg_none, optNonneg_none, optNonneg_none, optNonneg_none,
      optNonneg_some (by norm_num), optNonneg_some (by norm_num)⟩
  · intro f hf
    rw [show specDispatch "Franchises" = Family.generic from by decide] at hf
    simp [requiredFields] at hf

/-- C6 (amended): for every category and record with non-negative numeric
fields, the required fields present, and any `method` entry drawn from the
method hierarchy, the engine returns a well-formed result: non-negative
emissions and a method that is a hierarchy label or the PCAF label. -/
theorem compute_result_wellformed (cat : String) (i : Inputs)
    (hnn : NonnegInputs i) (hreq : RequiredPresent cat i)
    (hmeth : ∀ m, i.method = some m → m ∈ hierarchyLabels) :
    ∃ e meth, calculate_emissions cat i = Except.ok (e, meth) ∧
      0 ≤ e ∧ meth ∈ allowedMethods := by
  obtain ⟨nn1, nn2, nn3, nn4, nn5, nn6, nn7, nn8, nn9, nn10, nn11, nn12,
    nn13, nn14⟩ := hnn
  unfold calculate_emissions
  unfold RequiredPresent specDispatch at hreq
  split_ifs at hreq ⊢ with h1 h2 h3 h4
  · have hd := hreq "distance_km" (by decide)
    have htf := hreq "travel_factor" (by decide)
    have hhn := hreq "hotel_nights" (by decide)
    have hhf := hreq "hotel_factor" (by decide)
    simp [getField] at hd htf hhn hhf
    rcases Option.isSome_iff_exists.mp hd with ⟨d, hd'⟩
    rcases Option.isSome_iff_exists.mp htf with ⟨tf, htf'⟩
    rcases Option.isSome_iff_exists.mp hhn with ⟨hn, hhn'⟩
    rcases Option.isSome_iff_exists.mp hhf with ⟨hf, hhf'⟩
    rw [hd', htf', hhn', hhf']
    refine ⟨d * tf + hn * hf, "Activity-Based", rfl, ?_, by decide⟩
    exact add_nonneg
      (mul_nonneg (nn1 d hd')
        (nn2 tf htf'))
      (mul_nonneg (nn3 hn hhn')
        (nn4 hf hhf'))
  · have hd := hreq "distance_km" (by decide)
    have hw := hreq "weight_tonnes" (by decide)
    have ht := hreq "transport_factor" (by decide)
    simp [getField] at hd hw ht
    rcases Option.isSome_iff_exists.mp hd with ⟨d, hd'⟩
    rcases Option.isSome_iff_exists.mp hw with ⟨w, hw'⟩
    rcases Option.isSome_iff_exists.mp ht with ⟨t, ht'⟩
    rw [hd', hw', ht']
    refine ⟨d * w * t, "Activity-Based", rfl, ?_, by decide⟩
    exact mul_nonneg
      (mul_nonneg (nn1 d hd')
        (nn5 w hw'))
      (nn6 t ht')
  · have hie := hreq "investee_emissions" (by decide)
    have hoa := hreq "outstanding_amount" (by decide)
    have hev := hreq "evic" (by decide)
    simp [getField] at hie hoa hev
    rcases Option.isSome_iff_exists.mp hie with ⟨ie, hie'⟩
    rcases Option.isSome_iff_exists.mp hoa with ⟨oa, hoa'⟩
    rcases Option.isSome_iff_exists.mp hev with ⟨ev, hev'⟩
    rw [hie', hoa', hev']
    refine ⟨ie * (if ev ≠ 0 then oa / ev else 0), "PCAF Financed Emissions",
      rfl, ?_, by decide⟩
    refine mul_nonneg (nn7 ie hie') ?_
    by_cases hz : ev = 0
    · simp [hz]
    · rw [if_pos hz]
      exact div_nonneg (nn8 oa hoa')
        (nn9 ev hev')
  · have hl := hreq "lifetime_years" (by decide)
    have hau := hreq "annual_usage_kwh" (by decide)
    have hg := hreq "grid_factor" (by decide)
    simp [getField] at hl hau hg
    rcases Option.isSome_iff_exists.mp hl with ⟨l, hl'⟩
    rcases Option.isSome_iff_exists.mp hau with ⟨au, hau'⟩
    rcases Option.isSome_iff_exists.mp hg with ⟨g, hg'⟩
    rw [hl', hau', hg']
    refine ⟨l * au * g, "Activity-Based", rfl, ?_, by decide⟩
    exact mul_nonneg
      (mul_nonneg (nn10 l hl')
        (nn11 au hau'))
      (nn12 g hg')
  · refine ⟨_, _, rfl, ?_, ?_⟩
    · refine mul_nonneg ?_ ?_
      · rcases hq : i.quantity with _ | q
        · simp
        · simpa using nn13 q hq
      · rcases hg : i.generic_factor with _ | g
        · simp
        · simpa using nn14 g hg
    · rcases hm' : i.method with _ | mlab
      · simp only [hm', Option.getD_none]
        decide
      · simp only [hm', Option.getD_some]
        unfold allowedMethods
        exact List.mem_append_left _ (hmeth mlab hm')

/-- Witness for C6 (amended) at Business Travel with all four fields 1. -/
theorem compute_result_wellformed_witness :
    ∃ e meth, calculate_emissions "Business Travel" btInputs =
      Except.ok (e, meth) ∧ 0 ≤ e ∧ meth ∈ allowedMethods :=
  compute_result_wellformed "Business Travel" btInputs
    ⟨optNonneg_some (by norm_num), optNonneg_some (by norm_num),
     optNonneg_some (by norm_num), optNonneg_some (by norm_num),
     optNonneg_none, optNonneg_none, optNonneg_none, optNonneg_none,
     optNonneg_none, optNonneg_none, optNonneg_none, optNonneg_none,
     optNonneg_none, optNonneg_none⟩
    (by
      intro f hf
      rw [show specDispatch "Business Travel" = Family.businessTravel
        from by decide] at hf
      fin_cases hf <;> decide)
    (by intro m h; simp [btInputs] at h)

/-- C8: for every Business Travel record carrying the four fields, the
engine returns `distance_km × travel_factor + hotel_nights × hotel_factor`
and method "Activity-Based"; the spec's example yields 187.0. -/
theorem business_travel_formula (i : Inputs) (d tf hn hf : ℝ)
    (h1 : i.distance_km = some d) (h2 : i.travel_factor = some tf)
    (h3 : i.hotel_nights = some hn) (h4 : i.hotel_factor = some hf) :
    calculate_emissions "Business Travel" i =
      Except.ok (d * tf + hn * hf, "Activity-Based") ∧
    calculate_emissions "Business Travel" btInputs =
      Except.ok (187, "Activity-Based") := by
  constructor
  · unfold calculate_emissions
    rw [if_pos rfl, h1, h2, h3, h4]
    rfl
  · unfold calculate_emissions
    rw [if_pos rfl]
    refine Eq.trans (b := Except.ok ((1000 : ℝ) * 0.158 + 2 * 14.5,
      "Activity-Based")) rfl ?_
    norm_num

/-- Witness for C8 at the spec's concrete example record. -/
theorem business_travel_formula_witness :
    calculate_emissions "Business Travel" btInputs =
      Except.ok ((1000 : ℝ) * 0.158 + 2 * 14.5, "Activity-Based") ∧
    calculate_emissions "Business Travel" btInputs =
      Except.ok (187, "Activity-Based") :=
  business_travel_formula btInputs 1000 0.158 2 14.5 rfl rfl rfl rfl

/-- C9: the engine and the scorer are deterministic pure functions: calls
with identical arguments yield identical results. -/
theorem compute_and_score_deterministic :
    (∀ (c1 c2 : String) (i1 i2 : Inputs), c1 = c2 → i1 = i2 →
       calculate_emissions c1 i1 = calculate_emissions c2 i2) ∧
    (∀ (m1 m2 : String) (a1 a2 f1 f2 cv1 cv2 : ℝ),
       m1 = m2 → a1 = a2 → f1 = f2 → cv1 = cv2 →
       calculate_data_quality m1 a1 f1 cv1 = calculate_data_quality m2 a2 f2 cv2) := by
  constructor
  · intro c1 c2 i1 i2 hc hi
    rw [hc, hi]
  · intro m1 m2 a1 a2 f1 f2 cv1 cv2 hm ha hf hcv
    rw [hm, ha, hf, hcv]

/-- Witness for C9 at concrete arguments. -/
theorem compute_and_score_deterministic_witness :
    calculate_emissions "Business Travel" btInputs =
      calculate_emissions "Business Travel" btInputs ∧
    calculate_data_quality "Activity-Based" 20 15 85 =
      calculate_data_quality "Activity-Based" 20 15 85 :=
  ⟨compute_and_score_deterministic.1 _ _ _ _ rfl rfl,
   compute_and_score_deterministic.2 _ _ _ _ _ _ _ _ rfl rfl rfl rfl⟩

/-- C7 counterexample: with the method and the other inputs fixed, raising
the activity uncertainty from −100 to 0 strictly raises the quality score
(32.0 to 62.0), because the uncertainty enters squared; so over all reals
the score is not monotonically non-increasing in an uncertainty input. -/
theorem quality_score_not_antitone_counterexample :
    (-100 : ℝ) ≤ 0 ∧
    (calculate_data_quality "Activity-Based" (-100) 0 0).1 <
      (calculate_data_quality "Activity-Based" 0 0 0).1 := by
  refine ⟨by norm_num, ?_⟩
  have e1 : (calculate_data_quality "Activity-Based" (-100) 0 0).1 = 32 := by
    rw [calculate_data_quality_fst]
    rw [show Real.sqrt ((-100 : ℝ) ^ 2 + 0 ^ 2) = 100 by
      rw [show ((-100 : ℝ) ^ 2 + 0 ^ 2 : ℝ) = 100 ^ 2 by norm_num,
        Real.sqrt_sq (by norm_num : (0 : ℝ) ≤ 100)]]
    rw [show specRank "Activity-Based" = 4 from by decide]
    rw [show ((0.4 * (((4 : ℕ) : ℝ) / 5)) +
        (0.3 * max 0 (1 - (100 : ℝ) / 100)) +
        (0.3 * min (max ((0 : ℝ) / 100) 0) 1)) * 100 = ((32 : ℤ) : ℝ) by
      norm_num [max_def, min_def]]
    rw [pyRound_intCast]
    norm_num
  have e2 : (calculate_data_quality "Activity-Based" 0 0 0).1 = 62 := by
    rw [calculate_data_quality_fst]
    rw [show Real.sqrt ((0 : ℝ) ^ 2 + 0 ^ 2) = 0 by
      rw [show ((0 : ℝ) ^ 2 + 0 ^ 2 : ℝ) = 0 by norm_num, Real.sqrt_zero]]
    rw [show specRank "Activity-Based" = 4 from by decide]
    rw [show ((0.4 * (((4 : ℕ) : ℝ) / 5)) +
        (0.3 * max 0 (1 - (0 : ℝ) / 100)) +
        (0.3 * min (max ((0 : ℝ) / 100) 0) 1)) * 100 = ((62 : ℤ) : ℝ) by
      norm_num [max_def, min_def]]
    rw [pyRound_intCast]
    norm_num
  rw [e1, e2]
  norm_num

/-- C7 (amended): the quality score is monotonically non-decreasing in
coverage, and — for non-negative uncertainty inputs, as supplied by the
percentage sliders — monotonically non-increasing in each uncertainty
input with the other inputs fixed. -/
theorem quality_score_monotonicity :
    (∀ (m : String) (a f c c' : ℝ), c ≤ c' →
      (calculate_data_quality m a f c).1 ≤ (calculate_data_quality m a f c').1) ∧
    (∀ (m : String) (a a' f c : ℝ), 0 ≤ a → a ≤ a' →
      (calculate_data_quality m a' f c).1 ≤ (calculate_data_quality m a f c).1) ∧
    (∀ (m : String) (a f f' c : ℝ), 0 ≤ f → f ≤ f' →
      (calculate_data_quality m a f' c).1 ≤ (calculate_data_quality m a f c).1) := by
  refine ⟨?_, ?_, ?_⟩
  · intro m a f c c' hc
    rw [calculate_data_quality_fst, calculate_data_quality_fst]
    apply pyRound_mono
    gcongr
  · intro m a a' f c ha haa
    rw [calculate_data_quality_fst, calculate_data_quality_fst]
    apply pyRound_mono
    have hs : Real.sqrt (a ^ 2 + f ^ 2) ≤ Real.sqrt (a' ^ 2 + f ^ 2) := by
      gcongr
    gcongr
  · intro m a f f' c hf hff
    rw [calculate_data_quality_fst, calculate_data_quality_fst]
    apply pyRound_mono
    have hs : Real.sqrt (a ^ 2 + f ^ 2) ≤ Real.sqrt (a ^ 2 + f' ^ 2) := by
      gcongr
    gcongr

/-- Witness for C7 (amended) at concrete inputs. -/
theorem quality_score_monotonicity_witness :
    ((calculate_data_quality "Activity-Based" 20 15 50).1 ≤
      (calculate_data_quality "Activity-Based" 20 15 85).1) ∧
    ((calculate_data_quality "Activity-Based" 30 15 85).1 ≤
      (calculate_data_quality "Activity-Based" 20 15 85).1) ∧
    ((calculate_data_quality "Activity-Based" 20 25 85).1 ≤
      (calculate_data_quality "Activity-Based" 20 15 85).1) :=
  ⟨quality_score_monotonicity.1 "Activity-Based" 20 15 50 85 (by norm_num),
   quality_score_monotonicity.2.1 "Activity-Based" 20 30 15 85 (by norm_num)
     (by norm_num),
   quality_score_monotonicity.2.2 "Activity-Based" 20 15 25 85 (by norm_num)
     (by norm_num)⟩

/-- C10: for every method label and every triple of real inputs, including
negative and out-of-range ones, the quality score lies in [8, 100]: the
rank is at least 1 so the hierarchy term contributes at least 8, and the
uncertainty and coverage sub-scores are clamped within [0, 1]. -/
theorem quality_score_in_range (m : String) (a f c : ℝ) :
    8 ≤ (calculate_data_quality m a f c).1 ∧
    (calculate_data_quality m a f c).1 ≤ 100 := by
  rw [calculate_data_quality_fst]
  have h1 : (1 : ℝ) ≤ (specRank m : ℝ) := by exact_mod_cast specRank_ge_one m
  have h5 : ((specRank m : ℝ)) ≤ 5 := by exact_mod_cast specRank_le_five m
  have hs0 : 0 ≤ Real.sqrt (a ^ 2 + f ^ 2) := Real.sqrt_nonneg _
  have hu0 : 0 ≤ max 0 (1 - Real.sqrt (a ^ 2 + f ^ 2) / 100) := le_max_left _ _
  have hu1 : max 0 (1 - Real.sqrt (a ^ 2 + f ^ 2) / 100) ≤ 1 :=
    max_le (by norm_num) (by linarith)
  have hcs0 : 0 ≤ min (max (c / 100) 0) 1 :=
    le_min (le_max_right _ _) (by norm_num)
  have hcs1 : min (max (c / 100) 0) 1 ≤ 1 := min_le_right _ _
  constructor
  · have h8 := le_pyRound_of_le (z := 8) 1
      (x := ((0.4 * ((specRank m : ℝ) / 5)) +
        (0.3 * max 0 (1 - Real.sqrt (a ^ 2 + f ^ 2) / 100)) +
        (0.3 * min (max (c / 100) 0) 1)) * 100)
      (by push_cast; linarith)
    exact_mod_cast h8
  · have h100 := pyRound_le_of_le (z := 100) 1
      (x := ((0.4 * ((specRank m : ℝ) / 5)) +
        (0.3 * max 0 (1 - Real.sqrt (a ^ 2 + f ^ 2) / 100)) +
        (0.3 * min (max (c / 100) 0) 1)) * 100)
      (by push_cast; linarith)
    exact_mod_cast h100

end Scope3
